import Mathlib

/-!
Shallow embedding of `keyboards/gmmk/gmmk2/p65/iso/keymaps/villur/keymap.c`:
a three-layer keymap, an RGB indicator callback
(`rgb_matrix_indicators_advanced_user`), and a key-intercept callback
(`process_record_user`) that makes opposing directional keys (A/D, W/S)
mutually exclusive.
-/

/-- The plain (non-layer-action) keycode names appearing in the keymap
source.  `KC_TRNS` is the transparent key written `_______` in the
source. -/
inductive BasicKey where
  | QK_GESC | KC_1 | KC_2 | KC_3 | KC_4 | KC_5 | KC_6 | KC_7 | KC_8 | KC_9
  | KC_0 | KC_MINS | KC_EQL | KC_BSPC | KC_PSCR
  | KC_TAB | KC_Q | KC_W | KC_E | KC_R | KC_T | KC_Y | KC_U | KC_I | KC_O
  | KC_P | KC_LBRC | KC_RBRC | KC_INS
  | KC_F13 | KC_A | KC_S | KC_D | KC_F | KC_G | KC_H | KC_J | KC_K | KC_L
  | KC_SCLN | KC_QUOT | KC_NUHS | KC_ENT | KC_DEL
  | KC_LSFT | KC_NUBS | KC_Z | KC_X | KC_C | KC_V | KC_B | KC_N | KC_M
  | KC_COMM | KC_DOT | KC_SLSH | KC_RSFT | KC_UP | KC_END
  | KC_LCTL | KC_LGUI | KC_LALT | KC_SPC | KC_RALT | KC_LEFT | KC_DOWN
  | KC_RGHT
  | KC_TILDE | KC_F1 | KC_F2 | KC_F3 | KC_F4 | KC_F5 | KC_F6 | KC_F7
  | KC_F8 | KC_F9 | KC_F10 | KC_F11 | KC_F12
  | KC_SCRL | KC_PAUS | KC_CAPS
  | RGB_HUI | RGB_HUD | RGB_SPD | RGB_SPI
  | KC_MUTE | KC_VOLU | KC_VOLD | KC_MPRV | KC_MPLY | KC_MNXT
  | RGB_VAI | KC_HOME | QK_BOOT | RGB_RMOD | RGB_VAD | RGB_MOD
  | KC_TRNS
deriving DecidableEq, Repr

/-- Keycodes appearing in the keymap source: either a plain key, the
momentary layer action `MO(n)`, or the layer toggle `TO(n)`. -/
inductive Keycode where
  | KC (k : BasicKey)
  | MO (layer : Nat)
  | TO (layer : Nat)
deriving DecidableEq, Repr

/-- Shorthands so the embedded keymap reads like the source. -/
def Keycode.KC_A : Keycode := .KC .KC_A

def Keycode.KC_D : Keycode := .KC .KC_D

def Keycode.KC_W : Keycode := .KC .KC_W

def Keycode.KC_S : Keycode := .KC .KC_S

/-- The layer names of `enum custom_layers`; as a C enum they take the
consecutive values 0, 1, 2. -/
def _BL : Nat := 0

def _CS : Nat := 1

def _FL : Nat := 2

/-- Argument list of `LAYOUT_65_iso_blocker` for layer `_BL` (base layer),
read left to right, top to bottom from the source. -/
def keys_BL : List Keycode := [
  .KC .QK_GESC, .KC .KC_1, .KC .KC_2, .KC .KC_3, .KC .KC_4, .KC .KC_5, .KC .KC_6, .KC .KC_7, .KC .KC_8, .KC .KC_9,
  .KC .KC_0, .KC .KC_MINS, .KC .KC_EQL, .KC .KC_BSPC, .KC .KC_PSCR,
  .KC .KC_TAB, .KC .KC_Q, .KC .KC_W, .KC .KC_E, .KC .KC_R, .KC .KC_T, .KC .KC_Y, .KC .KC_U, .KC .KC_I, .KC .KC_O,
  .KC .KC_P, .KC .KC_LBRC, .KC .KC_RBRC, .KC .KC_INS,
  .KC .KC_F13, .KC .KC_A, .KC .KC_S, .KC .KC_D, .KC .KC_F, .KC .KC_G, .KC .KC_H, .KC .KC_J, .KC .KC_K, .KC .KC_L,
  .KC .KC_SCLN, .KC .KC_QUOT, .KC .KC_NUHS, .KC .KC_ENT, .KC .KC_DEL,
  .KC .KC_LSFT, .KC .KC_NUBS, .KC .KC_Z, .KC .KC_X, .KC .KC_C, .KC .KC_V, .KC .KC_B, .KC .KC_N, .KC .KC_M,
  .KC .KC_COMM, .KC .KC_DOT, .KC .KC_SLSH, .KC .KC_RSFT, .KC .KC_UP, .KC .KC_END,
  .KC .KC_LCTL, .KC .KC_LGUI, .KC .KC_LALT, .KC .KC_SPC, .KC .KC_RALT, .MO _FL, .KC .KC_LEFT,
  .KC .KC_DOWN, .KC .KC_RGHT]

/-- Argument list of `LAYOUT_65_iso_blocker` for layer `_CS`. -/
def keys_CS : List Keycode := [
  .KC .QK_GESC, .KC .KC_1, .KC .KC_2, .KC .KC_3, .KC .KC_4, .KC .KC_5, .KC .KC_6, .KC .KC_7, .KC .KC_8, .KC .KC_9,
  .KC .KC_0, .KC .KC_MINS, .KC .KC_EQL, .KC .KC_BSPC, .KC .KC_PSCR,
  .KC .KC_TAB, .KC .KC_Q, .KC .KC_W, .KC .KC_E, .KC .KC_R, .KC .KC_T, .KC .KC_Y, .KC .KC_U, .KC .KC_I, .KC .KC_O,
  .KC .KC_P, .KC .KC_LBRC, .KC .KC_RBRC, .KC .KC_INS,
  .KC .KC_F13, .KC .KC_A, .KC .KC_S, .KC .KC_D, .KC .KC_F, .KC .KC_G, .KC .KC_H, .KC .KC_J, .KC .KC_K, .KC .KC_L,
  .KC .KC_SCLN, .KC .KC_QUOT, .KC .KC_NUHS, .KC .KC_ENT, .KC .KC_DEL,
  .KC .KC_LSFT, .KC .KC_NUBS, .KC .KC_Z, .KC .KC_X, .KC .KC_C, .KC .KC_V, .KC .KC_B, .KC .KC_N, .KC .KC_M,
  .KC .KC_COMM, .KC .KC_DOT, .KC .KC_SLSH, .KC .KC_RSFT, .KC .KC_UP, .KC .KC_END,
  .KC .KC_LCTL, .KC .KC_LGUI, .KC .KC_LALT, .KC .KC_SPC, .KC .KC_RALT, .MO _FL, .KC .KC_LEFT,
  .KC .KC_DOWN, .KC .KC_RGHT]

/-- Argument list of `LAYOUT_65_iso_blocker` for layer `_FL` (function
layer). -/
def keys_FL : List Keycode := [
  .KC .KC_TILDE, .KC .KC_F1, .KC .KC_F2, .KC .KC_F3, .KC .KC_F4, .KC .KC_F5, .KC .KC_F6, .KC .KC_F7,
  .KC .KC_F8, .KC .KC_F9, .KC .KC_F10, .KC .KC_F11, .KC .KC_F12, .KC .KC_TRNS, .KC .KC_INS,
  .KC .KC_TRNS, .KC .KC_TRNS, .KC .KC_TRNS, .KC .KC_TRNS, .KC .KC_TRNS, .KC .KC_TRNS, .KC .KC_TRNS,
  .KC .KC_TRNS, .KC .KC_TRNS, .KC .KC_TRNS, .KC .KC_PSCR, .KC .KC_SCRL, .KC .KC_PAUS, .KC .KC_TRNS,
  .KC .KC_CAPS, .TO _BL, .TO _CS, .KC .KC_TRNS, .KC .KC_TRNS, .KC .KC_TRNS, .KC .KC_TRNS,
  .KC .KC_TRNS, .KC .KC_TRNS, .KC .KC_TRNS, .KC .KC_TRNS, .KC .KC_TRNS, .KC .KC_TRNS, .KC .KC_TRNS,
  .KC .KC_TRNS,
  .KC .KC_TRNS, .KC .KC_TRNS, .KC .RGB_HUI, .KC .RGB_HUD, .KC .RGB_SPD, .KC .RGB_SPI, .KC .KC_MUTE,
  .KC .KC_VOLU, .KC .KC_VOLD, .KC .KC_MPRV, .KC .KC_MPLY, .KC .KC_MNXT, .KC .KC_TRNS, .KC .RGB_VAI,
  .KC .KC_HOME,
  .KC .KC_TRNS, .KC .KC_TRNS, .KC .KC_TRNS, .KC .QK_BOOT, .KC .KC_TRNS, .KC .KC_TRNS, .KC .RGB_RMOD,
  .KC .RGB_VAD, .KC .RGB_MOD]

/-- The `keymaps` array: one entry per layer index, in enum order. -/
def keymaps : List (List Keycode) := [keys_BL, keys_CS, keys_FL]

/-- An RGB color triple, as passed to `rgb_matrix_set_color_all`. -/
structure RGB where
  r : Nat
  g : Nat
  b : Nat
deriving DecidableEq, Repr

/-- `rgb_matrix_set_color_all(r, g, b)`: overwrite every LED with one
color.  The LED state is a map from LED index to color. -/
def rgb_matrix_set_color_all (c : RGB) : (Nat → RGB) → (Nat → RGB) :=
  fun _ => fun _ => c

/-- `rgb_matrix_indicators_advanced_user(led_min, led_max)`.  The current
highest active layer (`get_highest_layer(layer_state)`) and the LED state
are passed explicitly; the result is the new LED state and the returned
bool. -/
def rgb_matrix_indicators_advanced_user (led_min led_max : Nat)
    (highest_layer : Nat) (leds : Nat → RGB) : (Nat → RGB) × Bool :=
  match highest_layer with
  | 1 => (rgb_matrix_set_color_all ⟨0, 255, 0⟩ leds, false)
  | 2 => (rgb_matrix_set_color_all ⟨255, 153, 255⟩ leds, false)
  | _ => (rgb_matrix_set_color_all ⟨255, 255, 255⟩ leds, false)

/-- The four `static bool` flags local to `process_record_user`. -/
structure HeldState where
  aHeld : Bool
  dHeld : Bool
  wHeld : Bool
  sHeld : Bool
deriving DecidableEq, Repr

/-- All four static flags are zero-initialised. -/
def initHeld : HeldState := ⟨false, false, false, false⟩

/-- A call to `register_code` or `unregister_code`. -/
inductive KeyAction where
  | register (kc : Keycode)
  | unregister (kc : Keycode)
deriving DecidableEq, Repr

/-- `process_record_user(keycode, record)`.  The current highest active
layer and the static flag state are passed explicitly; the result is the
updated flag state, the list of `register_code`/`unregister_code` calls
performed (in order), and the returned bool. -/
def process_record_user (highest_layer : Nat) (keycode : Keycode)
    (pressed : Bool) (s : HeldState) : HeldState × List KeyAction × Bool :=
  if highest_layer = 1 then
    if keycode = .KC_A then
      let s := { s with aHeld := pressed }
      if s.dHeld && s.aHeld then
        (s, [.unregister .KC_D], true)
      else if s.dHeld && !s.aHeld then
        (s, [.unregister .KC_A, .register .KC_D], false)
      else
        (s, [], true)
    else if keycode = .KC_D then
      let s := { s with dHeld := pressed }
      if s.aHeld && s.dHeld then
        (s, [.unregister .KC_A], true)
      else if s.aHeld && !s.dHeld then
        (s, [.unregister .KC_D, .register .KC_A], false)
      else
        (s, [], true)
    else if keycode = .KC_W then
      let s := { s with wHeld := pressed }
      if s.sHeld && s.wHeld then
        (s, [.unregister .KC_S], true)
      else if s.sHeld && !s.wHeld then
        (s, [.unregister .KC_W, .register .KC_S], false)
      else
        (s, [], true)
    else if keycode = .KC_S then
      let s := { s with sHeld := pressed }
      if s.wHeld && s.sHeld then
        (s, [.unregister .KC_W], true)
      else if s.wHeld && !s.sHeld then
        (s, [.unregister .KC_S, .register .KC_W], false)
      else
        (s, [], true)
    else
      (s, [], true)
  else
    (s, [], true)

/-- A key event as delivered to `process_record_user`: the highest active
layer at delivery time, the keycode, and whether it is a press. -/
structure Event where
  layer : Nat
  keycode : Keycode
  pressed : Bool
deriving DecidableEq, Repr

/-- The set of currently registered (host-visible held) keycodes,
maintained by `register_code`/`unregister_code` and by the firmware's
normal processing of events for which `process_record_user` returned
true. -/
def applyAction (R : Keycode → Bool) : KeyAction → (Keycode → Bool)
  | .register kc => fun k => if k = kc then true else R k
  | .unregister kc => fun k => if k = kc then false else R k

/-- Firmware state around the callback: the static flags plus the
registered-keycode set. -/
structure SysState where
  held : HeldState
  reg : Keycode → Bool

/-- Initial firmware state: flags false, nothing registered. -/
def initSys : SysState := ⟨initHeld, fun _ => false⟩

/-- Process one key event: run `process_record_user`, apply its
`register_code`/`unregister_code` calls, and if it returned true let the
firmware's normal processing register (on press) or unregister (on
release) the event's keycode. -/
def processEvent (st : SysState) (e : Event) : SysState :=
  let r := process_record_user e.layer e.keycode e.pressed st.held
  let R1 := r.2.1.foldl applyAction st.reg
  let R2 := if r.2.2 then
      (if e.pressed then (fun k => if k = e.keycode then true else R1 k)
       else (fun k => if k = e.keycode then false else R1 k))
    else R1
  ⟨r.1, R2⟩

/-- Process a sequence of key events from the initial state. -/
def runEvents (events : List Event) : SysState :=
  events.foldl processEvent initSys

/-- The opposing key of each intercepted directional key (spec-side
helper): A ↔ D and W ↔ S; any other keycode is its own image. -/
def opposing : Keycode → Keycode
  | .KC .KC_A => .KC .KC_D
  | .KC .KC_D => .KC .KC_A
  | .KC .KC_W => .KC .KC_S
  | .KC .KC_S => .KC .KC_W
  | k => k

/-- The pressed-state of the most recent event with keycode `kc` that was
delivered while layer 1 was the highest active layer (spec-side helper for
the flag invariant); `false` when there is no such event. -/
def specFlag (kc : Keycode) (events : List Event) : Bool :=
  events.foldl
    (fun b e => if e.layer = 1 ∧ e.keycode = kc then e.pressed else b) false

/-- C2: the indicator callback paints every LED with one solid color that
depends only on the highest active layer: green `(0, 255, 0)` on layer 1,
pink `(255, 153, 255)` on layer 2, white `(255, 255, 255)` on every other
layer, including layer 0. -/
theorem c2_indicator_solid_color (led_min led_max highest_layer : Nat)
    (leds : Nat → RGB) (led : Nat) :
    (rgb_matrix_indicators_advanced_user led_min led_max highest_layer
        leds).1 led =
      (if highest_layer = 1 then ⟨0, 255, 0⟩
       else if highest_layer = 2 then ⟨255, 153, 255⟩
       else ⟨255, 255, 255⟩) := by
  rcases highest_layer with _ | _ | _ | n <;> rfl

/-- C9: the indicator callback is a pure function of the highest active
layer: its LED output and returned value do not depend on `led_min` or
`led_max` at all. -/
theorem c9_indicator_independent_of_led_range
    (led_min led_max led_min' led_max' highest_layer : Nat)
    (leds : Nat → RGB) :
    rgb_matrix_indicators_advanced_user led_min led_max highest_layer leds =
      rgb_matrix_indicators_advanced_user led_min' led_max' highest_layer
        leds := rfl

/-- C7: the keymap defines exactly three layers, `_BL = 0`, `_CS = 1`,
`_FL = 2`, and the `keymaps` array has exactly one entry per layer index
and no others. -/
theorem c7_exactly_three_layers :
    _BL = 0 ∧ _CS = 1 ∧ _FL = 2 ∧ keymaps.length = 3 :=
  ⟨rfl, rfl, rfl, rfl⟩

/-- C8: both base layers contain the momentary action `MO(_FL)` reaching
the function layer, and the function layer contains the toggles `TO(_BL)`
and `TO(_CS)` selecting between the two base layers. -/
theorem c8_layer_reachability :
    Keycode.MO _FL ∈ keymaps.getD _BL [] ∧
    Keycode.MO _FL ∈ keymaps.getD _CS [] ∧
    Keycode.TO _BL ∈ keymaps.getD _FL [] ∧
    Keycode.TO _CS ∈ keymaps.getD _FL [] := by
  refine ⟨?_, ?_, ?_, ?_⟩ <;> decide

/-- C10: the `_CS` layer's keycode matrix is identical to the `_BL`
layer's.  The `LAYOUT_65_iso_blocker` macro (defined by the keyboard, not
this file) is a fixed arrangement of its argument list into the
`MATRIX_ROWS × MATRIX_COLS` grid, so the statement quantifies over an
arbitrary arrangement `L`: the two layers' argument lists are equal, hence
every `(row, column)` entry of the two layers agrees. -/
theorem c10_cs_layer_equals_bl_layer
    (L : List Keycode → Nat → Nat → Keycode) (row col : Nat) :
    keymaps.getD _CS [] = keymaps.getD _BL [] ∧
    L (keymaps.getD _CS []) row col = L (keymaps.getD _BL []) row col :=
  ⟨rfl, rfl⟩

/-- C3: the key-intercept callback intercepts exactly the four keycodes
`KC_A`, `KC_D`, `KC_W`, `KC_S` and only while layer 1 is the highest
active layer: in every other case it returns true, performs no
`register_code` or `unregister_code` call, and leaves all four held flags
unchanged. -/
theorem c3_intercepts_only_four_keys_on_layer1 (highest_layer : Nat)
    (kc : Keycode) (pressed : Bool) (s : HeldState)
    (h : highest_layer ≠ 1 ∨
      (kc ≠ .KC_A ∧ kc ≠ .KC_D ∧ kc ≠ .KC_W ∧ kc ≠ .KC_S)) :
    process_record_user highest_layer kc pressed s = (s, [], true) := by
  unfold process_record_user
  rcases h with h | ⟨h1, h2, h3, h4⟩
  · rw [if_neg h]
  · by_cases hl : highest_layer = 1
    · rw [if_pos hl, if_neg h1, if_neg h2, if_neg h3, if_neg h4]
    · rw [if_neg hl]

/-- Witness for C3: a concrete non-intercepted call (`KC_Q` on layer 1)
returns true with no side effects. -/
theorem c3_witness :
    process_record_user 1 (.KC .KC_Q) true initHeld = (initHeld, [], true) :=
  c3_intercepts_only_four_keys_on_layer1 1 (.KC .KC_Q) true initHeld
    (Or.inr ⟨by decide, by decide, by decide, by decide⟩)

/-- C4: pressing one key of an opposing pair while the other is held (on
layer 1) unregisters the opposing keycode and returns true, so the new
key's own output goes through normal processing: after the event the
opposing keycode is not registered and the pressed keycode is. -/
theorem c4_most_recent_press_wins (st : SysState) :
    (st.held.dHeld = true →
      process_record_user 1 .KC_A true st.held =
        ({ st.held with aHeld := true }, [.unregister .KC_D], true) ∧
      (processEvent st ⟨1, .KC_A, true⟩).reg .KC_D = false ∧
      (processEvent st ⟨1, .KC_A, true⟩).reg .KC_A = true) ∧
    (st.held.aHeld = true →
      process_record_user 1 .KC_D true st.held =
        ({ st.held with dHeld := true }, [.unregister .KC_A], true) ∧
      (processEvent st ⟨1, .KC_D, true⟩).reg .KC_A = false ∧
      (processEvent st ⟨1, .KC_D, true⟩).reg .KC_D = true) ∧
    (st.held.sHeld = true →
      process_record_user 1 .KC_W true st.held =
        ({ st.held with wHeld := true }, [.unregister .KC_S], true) ∧
      (processEvent st ⟨1, .KC_W, true⟩).reg .KC_S = false ∧
      (processEvent st ⟨1, .KC_W, true⟩).reg .KC_W = true) ∧
    (st.held.wHeld = true →
      process_record_user 1 .KC_S true st.held =
        ({ st.held with sHeld := true }, [.unregister .KC_W], true) ∧
      (processEvent st ⟨1, .KC_S, true⟩).reg .KC_W = false ∧
      (processEvent st ⟨1, .KC_S, true⟩).reg .KC_S = true) := by
  refine ⟨fun h => ?_, fun h => ?_, fun h => ?_, fun h => ?_⟩ <;>
    simp [processEvent, process_record_user, applyAction, h,
      Keycode.KC_A, Keycode.KC_D, Keycode.KC_W, Keycode.KC_S]

/-- Witness for C4: with all four flags held and nothing registered,
pressing `KC_A` leaves `KC_D` unregistered. -/
theorem c4_witness :
    (processEvent ⟨⟨true, true, true, true⟩, fun _ => false⟩
        ⟨1, .KC_A, true⟩).reg .KC_D = false :=
  ((c4_most_recent_press_wins
      ⟨⟨true, true, true, true⟩, fun _ => false⟩).1 rfl).2.1

/-- C5: the key-intercept callback returns false exactly when layer 1 is
highest, the keycode is one of the four directional keys, the event is a
release, and the opposing key's flag is held; in that case its side
effects are exactly `unregister_code` on the released keycode followed by
`register_code` on the opposing keycode. -/
theorem c5_returns_false_iff (highest_layer : Nat) (kc : Keycode)
    (pressed : Bool) (s : HeldState) :
    ((process_record_user highest_layer kc pressed s).2.2 = false ↔
      (highest_layer = 1 ∧ pressed = false ∧
        ((kc = .KC_A ∧ s.dHeld = true) ∨ (kc = .KC_D ∧ s.aHeld = true) ∨
         (kc = .KC_W ∧ s.sHeld = true) ∨ (kc = .KC_S ∧ s.wHeld = true)))) ∧
    ((process_record_user highest_layer kc pressed s).2.2 = false →
      (process_record_user highest_layer kc pressed s).2.1 =
        [.unregister kc, .register (opposing kc)]) := by
  by_cases hl : highest_layer = 1
  · subst hl
    by_cases hA : kc = .KC_A
    · subst hA
      cases pressed <;> cases hd : s.dHeld <;>
        simp [process_record_user, opposing, hd,
          Keycode.KC_A, Keycode.KC_D, Keycode.KC_W, Keycode.KC_S]
    · by_cases hD : kc = .KC_D
      · subst hD
        cases pressed <;> cases ha : s.aHeld <;>
          simp [process_record_user, opposing, ha,
            Keycode.KC_A, Keycode.KC_D, Keycode.KC_W, Keycode.KC_S]
      · by_cases hW : kc = .KC_W
        · subst hW
          cases pressed <;> cases hs : s.sHeld <;>
            simp [process_record_user, opposing, hs,
              Keycode.KC_A, Keycode.KC_D, Keycode.KC_W, Keycode.KC_S]
        · by_cases hS : kc = .KC_S
          · subst hS
            cases pressed <;> cases hw : s.wHeld <;>
              simp [process_record_user, opposing, hw,
                Keycode.KC_A, Keycode.KC_D, Keycode.KC_W, Keycode.KC_S]
          · simp [process_record_user, hA, hD, hW, hS]
  · simp [process_record_user, hl]

/-- Witness for C5: releasing `KC_A` on layer 1 while `dHeld` is set makes
the callback return false, and its side effects are exactly unregistering
`KC_A` and registering `KC_D`. -/
theorem c5_witness :
    (process_record_user 1 .KC_A false ⟨false, true, false, false⟩).2.2
        = false ∧
    (process_record_user 1 .KC_A false ⟨false, true, false, false⟩).2.1 =
      [.unregister .KC_A, .register (opposing .KC_A)] :=
  ⟨by decide,
   (c5_returns_false_iff 1 .KC_A false ⟨false, true, false, false⟩).2
     (by decide)⟩

/-- The four static flags after one event: each directional flag becomes
the event's pressed-state when the event carries that keycode on layer 1,
and is untouched otherwise. -/
theorem processEvent_held_flags (st : SysState) (e : Event) :
    (processEvent st e).held.aHeld =
      (if e.layer = 1 ∧ e.keycode = .KC_A then e.pressed
       else st.held.aHeld) ∧
    (processEvent st e).held.dHeld =
      (if e.layer = 1 ∧ e.keycode = .KC_D then e.pressed
       else st.held.dHeld) ∧
    (processEvent st e).held.wHeld =
      (if e.layer = 1 ∧ e.keycode = .KC_W then e.pressed
       else st.held.wHeld) ∧
    (processEvent st e).held.sHeld =
      (if e.layer = 1 ∧ e.keycode = .KC_S then e.pressed
       else st.held.sHeld) := by
  obtain ⟨l, kc, p⟩ := e
  by_cases hl : l = 1
  · subst hl
    by_cases hA : kc = .KC_A
    · subst hA
      cases p <;> cases hd : st.held.dHeld <;>
        simp [processEvent, process_record_user, hd,
          Keycode.KC_A, Keycode.KC_D, Keycode.KC_W, Keycode.KC_S]
    · by_cases hD : kc = .KC_D
      · subst hD
        cases p <;> cases ha : st.held.aHeld <;>
          simp [processEvent, process_record_user, ha,
            Keycode.KC_A, Keycode.KC_D, Keycode.KC_W, Keycode.KC_S]
      · by_cases hW : kc = .KC_W
        · subst hW
          cases p <;> cases hs : st.held.sHeld <;>
            simp [processEvent, process_record_user, hs,
              Keycode.KC_A, Keycode.KC_D, Keycode.KC_W, Keycode.KC_S]
        · by_cases hS : kc = .KC_S
          · subst hS
            cases p <;> cases hw : st.held.wHeld <;>
              simp [processEvent, process_record_user, hw,
                Keycode.KC_A, Keycode.KC_D, Keycode.KC_W, Keycode.KC_S]
          · simp [processEvent, process_record_user, hA, hD, hW, hS]
  · simp [processEvent, process_record_user, hl]

/-- Folding the flag-projection of the step function: the `aHeld` flag
after a run equals the last-matching-event fold. -/
theorem run_flag_aHeld (events : List Event) (st : SysState) :
    (events.foldl processEvent st).held.aHeld =
      events.foldl
        (fun b e => if e.layer = 1 ∧ e.keycode = .KC_A then e.pressed else b)
        st.held.aHeld := by
  induction events generalizing st with
  | nil => rfl
  | cons e rest ih =>
      simp only [List.foldl_cons]
      rw [ih, (processEvent_held_flags st e).1]

/-- Companion of `run_flag_aHeld` for `dHeld`. -/
theorem run_flag_dHeld (events : List Event) (st : SysState) :
    (events.foldl processEvent st).held.dHeld =
      events.foldl
        (fun b e => if e.layer = 1 ∧ e.keycode = .KC_D then e.pressed else b)
        st.held.dHeld := by
  induction events generalizing st with
  | nil => rfl
  | cons e rest ih =>
      simp only [List.foldl_cons]
      rw [ih, (processEvent_held_flags st e).2.1]

/-- Companion of `run_flag_aHeld` for `wHeld`. -/
theorem run_flag_wHeld (events : List Event) (st : SysState) :
    (events.foldl processEvent st).held.wHeld =
      events.foldl
        (fun b e => if e.layer = 1 ∧ e.keycode = .KC_W then e.pressed else b)
        st.held.wHeld := by
  induction events generalizing st with
  | nil => rfl
  | cons e rest ih =>
      simp only [List.foldl_cons]
      rw [ih, (processEvent_held_flags st e).2.2.1]

/-- Companion of `run_flag_aHeld` for `sHeld`. -/
theorem run_flag_sHeld (events : List Event) (st : SysState) :
    (events.foldl processEvent st).held.sHeld =
      events.foldl
        (fun b e => if e.layer = 1 ∧ e.keycode = .KC_S then e.pressed else b)
        st.held.sHeld := by
  induction events generalizing st with
  | nil => rfl
  | cons e rest ih =>
      simp only [List.foldl_cons]
      rw [ih, (processEvent_held_flags st e).2.2.2]

/-- C6: the intercept state is exactly four booleans, all initially false,
and after any event sequence each flag equals the pressed-state of the
most recent event with that keycode delivered while layer 1 was the
highest active layer; events delivered on other layers never update the
flags. -/
theorem c6_flags_track_most_recent_layer1_event (events : List Event) :
    initHeld = ⟨false, false, false, false⟩ ∧
    (runEvents events).held.aHeld = specFlag .KC_A events ∧
    (runEvents events).held.dHeld = specFlag .KC_D events ∧
    (runEvents events).held.wHeld = specFlag .KC_W events ∧
    (runEvents events).held.sHeld = specFlag .KC_S events :=
  ⟨rfl, run_flag_aHeld events initSys, run_flag_dHeld events initSys,
   run_flag_wHeld events initSys, run_flag_sHeld events initSys⟩

/-- Invariant tying the registered set to the flags: a directional keycode
whose flag is down is not registered, and of each opposing pair at least
one keycode is unregistered. -/
def goodReg (st : SysState) : Prop :=
  (st.held.aHeld = false → st.reg .KC_A = false) ∧
  (st.held.dHeld = false → st.reg .KC_D = false) ∧
  (st.held.wHeld = false → st.reg .KC_W = false) ∧
  (st.held.sHeld = false → st.reg .KC_S = false) ∧
  (st.reg .KC_A = false ∨ st.reg .KC_D = false) ∧
  (st.reg .KC_W = false ∨ st.reg .KC_S = false)

/-- The invariant holds initially: nothing is registered. -/
theorem goodReg_init : goodReg initSys := by
  simp [goodReg, initSys]

set_option maxHeartbeats 1600000 in
/-- One layer-1 event preserves the invariant. -/
theorem goodReg_step (st : SysState) (kc : Keycode) (p : Bool)
    (hg : goodReg st) : goodReg (processEvent st ⟨1, kc, p⟩) := by
  obtain ⟨hA, hD, hW, hS, hAD, hWS⟩ := hg
  simp only [Keycode.KC_A, Keycode.KC_D, Keycode.KC_W, Keycode.KC_S]
    at hA hD hW hS hAD hWS
  by_cases hkA : kc = .KC_A
  · subst hkA
    cases p <;> cases hd : st.held.dHeld <;>
      refine ⟨?_, ?_, ?_, ?_, ?_, ?_⟩ <;>
        simp [processEvent, process_record_user, applyAction, hd,
          Keycode.KC_A, Keycode.KC_D, Keycode.KC_W, Keycode.KC_S] <;>
        tauto
  · by_cases hkD : kc = .KC_D
    · subst hkD
      cases p <;> cases ha : st.held.aHeld <;>
        refine ⟨?_, ?_, ?_, ?_, ?_, ?_⟩ <;>
          simp [processEvent, process_record_user, applyAction, ha,
            Keycode.KC_A, Keycode.KC_D, Keycode.KC_W, Keycode.KC_S] <;>
          tauto
    · by_cases hkW : kc = .KC_W
      · subst hkW
        cases p <;> cases hs : st.held.sHeld <;>
          refine ⟨?_, ?_, ?_, ?_, ?_, ?_⟩ <;>
            simp [processEvent, process_record_user, applyAction, hs,
              Keycode.KC_A, Keycode.KC_D, Keycode.KC_W, Keycode.KC_S] <;>
            tauto
      · by_cases hkS : kc = .KC_S
        · subst hkS
          cases p <;> cases hw : st.held.wHeld <;>
            refine ⟨?_, ?_, ?_, ?_, ?_, ?_⟩ <;>
              simp [processEvent, process_record_user, applyAction, hw,
                Keycode.KC_A, Keycode.KC_D, Keycode.KC_W, Keycode.KC_S] <;>
              tauto
        · have hkA' := hkA
          have hkD' := hkD
          have hkW' := hkW
          have hkS' := hkS
          simp only [Keycode.KC_A, Keycode.KC_D, Keycode.KC_W,
            Keycode.KC_S] at hkA' hkD' hkW' hkS'
          cases p <;>
            refine ⟨?_, ?_, ?_, ?_, ?_, ?_⟩ <;>
              simp [processEvent, process_record_user, applyAction,
                hkA', hkD', hkW', hkS', Ne.symm hkA', Ne.symm hkD',
                Ne.symm hkW', Ne.symm hkS',
                Keycode.KC_A, Keycode.KC_D, Keycode.KC_W, Keycode.KC_S] <;>
              tauto

/-- The invariant holds after any run of layer-1 events. -/
theorem goodReg_run (events : List Event) (st : SysState)
    (h : ∀ e ∈ events, e.layer = 1) (hst : goodReg st) :
    goodReg (events.foldl processEvent st) := by
  induction events generalizing st with
  | nil => exact hst
  | cons e rest ih =>
      simp only [List.foldl_cons]
      refine ih _ (fun x hx => h x (List.mem_cons_of_mem _ hx)) ?_
      obtain ⟨l, kcode, prs⟩ := e
      have hl : l = 1 := h _ (List.mem_cons_self _ _)
      subst hl
      exact goodReg_step st kcode prs hst

/-- C1: over any event sequence delivered entirely while layer 1 is the
highest active layer, opposing directional keys are never both registered:
after each processed event (each prefix of the sequence), `KC_A` and
`KC_D` are not both registered, and `KC_W` and `KC_S` are not both
registered. -/
theorem c1_opposing_keys_mutually_exclusive (events : List Event)
    (h : ∀ e ∈ events, e.layer = 1) :
    ∀ pre, pre <+: events →
      ¬((runEvents pre).reg .KC_A = true ∧
        (runEvents pre).reg .KC_D = true) ∧
      ¬((runEvents pre).reg .KC_W = true ∧
        (runEvents pre).reg .KC_S = true) := by
  intro pre hpre
  have h' : ∀ e ∈ pre, e.layer = 1 := fun e he => h e (hpre.subset he)
  have hg := goodReg_run pre initSys h' goodReg_init
  have h1 : (runEvents pre).reg .KC_A = false ∨
      (runEvents pre).reg .KC_D = false := hg.2.2.2.2.1
  have h2 : (runEvents pre).reg .KC_W = false ∨
      (runEvents pre).reg .KC_S = false := hg.2.2.2.2.2
  refine ⟨fun hxy => ?_, fun hxy => ?_⟩
  · rcases h1 with hc | hc
    · exact absurd hxy.1 (by simp [hc])
    · exact absurd hxy.2 (by simp [hc])
  · rcases h2 with hc | hc
    · exact absurd hxy.1 (by simp [hc])
    · exact absurd hxy.2 (by simp [hc])

/-- Witness for C1: a concrete layer-1 sequence (press A, press D, release
D) never has both keys of a pair registered at its end. -/
theorem c1_witness :
    ¬((runEvents [⟨1, .KC_A, true⟩, ⟨1, .KC_D, true⟩,
          ⟨1, .KC_D, false⟩]).reg .KC_A = true ∧
      (runEvents [⟨1, .KC_A, true⟩, ⟨1, .KC_D, true⟩,
          ⟨1, .KC_D, false⟩]).reg .KC_D = true) ∧
    ¬((runEvents [⟨1, .KC_A, true⟩, ⟨1, .KC_D, true⟩,
          ⟨1, .KC_D, false⟩]).reg .KC_W = true ∧
      (runEvents [⟨1, .KC_A, true⟩, ⟨1, .KC_D, true⟩,
          ⟨1, .KC_D, false⟩]).reg .KC_S = true) :=
  c1_opposing_keys_mutually_exclusive
    [⟨1, .KC_A, true⟩, ⟨1, .KC_D, true⟩, ⟨1, .KC_D, false⟩]
    (by decide) _ List.prefix_rfl
